import Mathlib

/-!
Shallow embedding of the hover-sum browser extension core
(provider-fallback summary pipeline) and proofs about it.

Sources embedded:
- src/api-manager.js        (APIManager: generateSummary cascade, per-provider calls)
- src/unnamed/part_001      (SummaryCache: get / set with TTL, lazy expiry)
- src/gemini-api.js         (GeminiAPI._parseResponse: structured parser)
- src/transcript-fetcher.js (TranscriptFetcher: fetchTranscript, _selectBestTrack)
- src/background.js         (generateAndShowSummary / handleGetSummary stages)

JavaScript specifics modelled explicitly: string/number truthiness, the
whitespace class of the regex escape for whitespace, case-insensitive
ASCII matching of regex literals, and chrome.storage as an explicit
key-value map threaded through the cache operations.
-/

namespace HoverSum

/-- JavaScript truthiness of an optional string value: undefined/null and
the empty string are falsy. -/
def truthyStr : Option String → Bool
  | none => false
  | some s => s ≠ ""

/-- JavaScript a || b for an optional string a and default b. -/
def jsOr (o : Option String) (d : String) : String :=
  match o with
  | none => d
  | some s => if s = "" then d else s

/-- The character class of the regex whitespace escape in JavaScript. -/
def jsWhitespaceChar (c : Char) : Bool :=
  c == ' ' || c == '\t' || c == '\n' || c == '\x0b' || c == '\x0c' ||
  c == '\r' || c == '\u00A0' || c == '\u1680' ||
  (decide ('\u2000' ≤ c) && decide (c ≤ '\u200A')) ||
  c == '\u2028' || c == '\u2029' || c == '\u202F' || c == '\u205F' ||
  c == '\u3000' || c == '\uFEFF'

/-- JavaScript line terminators (the characters the regex dot does not
match). -/
def jsLineTerm (c : Char) : Bool :=
  c == '\n' || c == '\r' || c == '\u2028' || c == '\u2029'

/-- ASCII decimal digit, the regex digit escape. -/
def isDigit09 (c : Char) : Bool :=
  decide ('0' ≤ c) && decide (c ≤ '9')

/-- String.prototype.trim on a character list. -/
def jsTrimL (l : List Char) : List Char :=
  ((l.dropWhile jsWhitespaceChar).reverse.dropWhile jsWhitespaceChar).reverse

/-- String.prototype.trim. -/
def jsTrim (s : String) : String := String.mk (jsTrimL s.data)

/-! ## Summary cache (src/unnamed/part_001) -/

/-- A stored cache entry: value `\x7b data, expiresAt, cachedAt \x7d`.
expiresAt is optional because storage may hold entries without it;
entries written by set always carry it. -/
structure CacheEntry (α : Type) where
  data : α
  expiresAt : Option Int
  cachedAt : Int
deriving DecidableEq

/-- chrome.storage.local modelled as a map from keys to optional entries. -/
def Storage (α : Type) : Type := String → Option (CacheEntry α)

/-- CACHE_PREFIX constant from the cache module. -/
def CACHE_PREFIX : String := "yt_summary_"

/-- DEFAULT_TTL_HOURS constant (168 hours = 7 days). -/
def DEFAULT_TTL_HOURS : Int := 168

/-- Key construction: CACHE_PREFIX + videoId. -/
def cacheKey (videoId : String) : String := CACHE_PREFIX ++ videoId

/-- SummaryCache.delete: remove the entry for videoId. -/
def SummaryCache.delete (st : Storage α) (videoId : String) : Storage α :=
  fun k => if k = cacheKey videoId then none else st k

/-- SummaryCache.get: look up the entry; absent gives null; present with a
truthy expiresAt in the past deletes the entry and gives null; otherwise
gives the stored data. Returns the value and the storage after the call. -/
def SummaryCache.get (st : Storage α) (now : Int) (videoId : String) :
    Option α × Storage α :=
  match st (cacheKey videoId) with
  | none => (none, st)
  | some e =>
    match e.expiresAt with
    | none => (some e.data, st)
    | some t =>
      if t ≠ 0 ∧ now > t then (none, SummaryCache.delete st videoId)
      else (some e.data, st)

/-- SummaryCache.set: write/overwrite the entry with
expiresAt = now + ttlHours*60*60*1000 and cachedAt = now. -/
def SummaryCache.set (st : Storage α) (now : Int) (videoId : String)
    (data : α) (ttlHours : Int) : Storage α :=
  fun k =>
    if k = cacheKey videoId then
      some ⟨data, some (now + ttlHours * 60 * 60 * 1000), now⟩
    else st k

/-! ## Provider cascade (src/api-manager.js) -/

/-- The fixed provider order of APIManager. -/
def providers : List String := ["gemini", "openrouter", "deepseek", "local"]

/-- Array.prototype.join with a newline separator, as used to build the
aggregate error message. -/
def joinLines : List String → String
  | [] => ""
  | [x] => x
  | x :: y :: xs => x ++ "\n" ++ joinLines (y :: xs)

/-- The aggregate error message built when every provider failed:
the header line followed by one line per recorded provider failure. -/
def aggregateMessage (errs : List (String × String)) : String :=
  "All AI providers failed:\n" ++
    joinLines (errs.map fun pe => "- " ++ pe.1 ++ ": " ++ pe.2)

/-- The cascade loop of generateSummary: try each provider in order, stop
at the first success, record failures and continue; when the list is
exhausted, fail with the aggregate message. Also returns the list of
providers actually invoked, in invocation order. -/
def cascadeGo (res : String → Except String String) :
    List String → List (String × String) →
    List String × Except String (String × String)
  | [], errs => ([], Except.error (aggregateMessage errs))
  | p :: rest, errs =>
    match res p with
    | Except.ok s => ([p], Except.ok (s, p))
    | Except.error e =>
      let r := cascadeGo res rest (errs ++ [(p, e)])
      (p :: r.1, r.2)

/-- APIManager.generateSummary, parameterised by the outcome of each
provider call (a provider either returns summary text or throws an error
message; a missing credential is one such thrown error). -/
def APIManager.generateSummary (res : String → Except String String) :
    List String × Except String (String × String) :=
  cascadeGo res providers []

/-! ## Provider configuration and per-provider calls (src/api-manager.js) -/

/-- The chrome.storage.sync settings record read by the providers. -/
structure SyncStorage where
  apiKey : Option String
  openRouterApiKey : Option String
  openRouterModel : Option String
  deepSeekApiKey : Option String
  ollamaUrl : Option String
  ollamaModel : Option String
deriving DecidableEq

/-- Outcome of a fetch: an HTTP response (ok flag, status, error body text,
optional parsed summary text from the JSON body) or a thrown network
error. -/
inductive NetOutcome where
  | resp (ok : Bool) (status : Nat) (bodyText : String)
      (jsonText : Option String)
  | netError (msg : String)
deriving DecidableEq

/-- The URL normalisation of _callLocal: replace of an end-anchored slash
removes a single trailing slash when present. -/
def stripTrailingSlash (s : String) : String :=
  match s.data.getLast? with
  | some '/' => String.mk s.data.dropLast
  | _ => s

/-- The resolved Ollama base URL and model of _callLocal: stored settings
with defaults substituted for absent or empty values. -/
def ollamaConfig (st : SyncStorage) : String × String :=
  (stripTrailingSlash (jsOr st.ollamaUrl "http://localhost:11434"),
   jsOr st.ollamaModel "llama3.2")

/-- Response handling of _callLocal: special-case status 403 (CORS) and
404 (model missing), otherwise a generic Ollama error; on success take
the trimmed response field or a fallback text; a thrown fetch error is
rewritten to a connection diagnostic. -/
def handleOllamaOutcome (model : String) : NetOutcome → Except String String
  | NetOutcome.resp ok status bodyText jsonText =>
    if ok then
      Except.ok
        (match jsonText with
         | some r => if jsTrim r = "" then "No response from Ollama" else jsTrim r
         | none => "No response from Ollama")
    else if status = 403 then
      Except.error
        ("CORS blocked by Ollama. Fix: Restart Ollama with CORS enabled:\n" ++
         "OLLAMA_ORIGINS=\"chrome-extension://*\" ollama serve")
    else if status = 404 then
      Except.error
        ("Model \"" ++ model ++ "\" not found. Run: ollama pull " ++ model)
    else
      Except.error ("Ollama error: " ++ toString status ++ " - " ++ bodyText)
  | NetOutcome.netError _ =>
    Except.error
      ("Cannot connect to Ollama. Make sure:\n" ++
       "1. Ollama is running (ollama serve)\n" ++
       "2. CORS is enabled: OLLAMA_ORIGINS=\"chrome-extension://*\" ollama serve")

/-- APIManager._callLocal: never gated on configuration — defaults are
substituted and the request is always issued. Returns the list of
requested URLs together with the outcome. -/
def APIManager.callLocal (st : SyncStorage) (net : String → NetOutcome) :
    List String × Except String String :=
  let url := (ollamaConfig st).1 ++ "/api/generate"
  ([url], handleOllamaOutcome (ollamaConfig st).2 (net url))

/-- Generic cloud response handling: non-2xx throws a provider error with
status and body, success yields the extracted text trimmed. -/
def handleCloudOutcome (label : String) : NetOutcome → Except String String
  | NetOutcome.resp ok status bodyText jsonText =>
    if ok then Except.ok (jsTrim (jsonText.getD ""))
    else Except.error (label ++ " error: " ++ toString status ++ " - " ++ bodyText)
  | NetOutcome.netError msg => Except.error msg

/-- APIManager._callGemini: without a truthy stored API key it throws
immediately and issues no request; otherwise it issues the request. -/
def APIManager.callGemini (st : SyncStorage) (net : String → NetOutcome) :
    List String × Except String String :=
  if truthyStr st.apiKey then
    let url := "https://generativelanguage.googleapis.com/v1beta/models/gemini-2.0-flash-exp:generateContent"
    ([url], handleCloudOutcome "Gemini API" (net url))
  else ([], Except.error "Gemini API key not configured")

/-- APIManager._callOpenRouter: key check, then request. -/
def APIManager.callOpenRouter (st : SyncStorage) (net : String → NetOutcome) :
    List String × Except String String :=
  if truthyStr st.openRouterApiKey then
    let url := "https://openrouter.ai/api/v1/chat/completions"
    ([url], handleCloudOutcome "OpenRouter API" (net url))
  else ([], Except.error "OpenRouter API key not configured")

/-- APIManager._callDeepSeek: key check, then request. -/
def APIManager.callDeepSeek (st : SyncStorage) (net : String → NetOutcome) :
    List String × Except String String :=
  if truthyStr st.deepSeekApiKey then
    let url := "https://api.deepseek.com/v1/chat/completions"
    ([url], handleCloudOutcome "DeepSeek API" (net url))
  else ([], Except.error "DeepSeek API key not configured")

/-- APIManager._callProvider: dispatch by provider name. -/
def APIManager.callProvider (st : SyncStorage) (net : String → NetOutcome)
    (provider : String) : Except String String :=
  if provider = "gemini" then (APIManager.callGemini st net).2
  else if provider = "openrouter" then (APIManager.callOpenRouter st net).2
  else if provider = "deepseek" then (APIManager.callDeepSeek st net).2
  else if provider = "local" then (APIManager.callLocal st net).2
  else Except.error ("Unknown provider: " ++ provider)

/-! ## Structured response parser (src/gemini-api.js, _parseResponse) -/

/-- String.prototype.split with a newline separator, on character
lists; the result is never empty and an empty input gives one empty
line. -/
def splitLinesL : List Char → List (List Char)
  | [] => [[]]
  | c :: cs =>
    let r := splitLinesL cs
    if c = '\n' then [] :: r else (c :: r.headI) :: r.tail

/-- String.prototype.split with a newline separator. -/
def jsLinesOf (s : String) : List String :=
  (splitLinesL s.data).map String.mk

/-- Lower-case an ASCII letter; other characters are unchanged (the
case-insensitive regex flag does not fold non-ASCII onto ASCII). -/
def asciiLower (c : Char) : Char :=
  if 'A' ≤ c ∧ c ≤ 'Z' then Char.ofNat (c.toNat + 32) else c

/-- Case-insensitive literal match of a pattern at the head of a list. -/
def matchesAtCI : List Char → List Char → Bool
  | _, [] => true
  | [], _ :: _ => false
  | c :: cs, p :: ps => (asciiLower c = asciiLower p) && matchesAtCI cs ps

/-- Index of the first case-insensitive occurrence of a pattern. -/
def findCI : List Char → List Char → Option Nat
  | s@(_ :: t), p =>
    if matchesAtCI s p then some 0 else (findCI t p).map (· + 1)
  | [], p => if matchesAtCI [] p then some 0 else none

/-- Block extraction for the SUMMARY and TAKEAWAYS regexes: find the first
case-insensitive marker occurrence, skip following whitespace greedily,
then capture lazily up to the stop marker (the lookahead) or the end of
the text. -/
def sectionAfter (text marker : String) (stop : Option String) :
    Option String :=
  match findCI text.data marker.data with
  | none => none
  | some i =>
    let rest := (text.data.drop (i + marker.data.length)).dropWhile jsWhitespaceChar
    match stop with
    | none => some (String.mk rest)
    | some stopM =>
      match findCI rest stopM.data with
      | none => some (String.mk rest)
      | some j => some (String.mk (rest.take j))

/-- One capture attempt of the disclaimer regex tail at a fixed start: the
lazy dot group takes the run of non-line-terminator characters and the
following character must be a newline or the end of input. -/
def captureAt (u : List Char) : Option (List Char) :=
  let w := u.takeWhile (fun c => !(jsLineTerm c))
  if w.isEmpty then none
  else
    match u.drop w.length with
    | [] => some w
    | c :: _ => if c = '\n' then some w else none

/-- Backtracking of the greedy whitespace run before the capture group:
try the longest whitespace consumption first, then shorter ones. -/
def capBacktrack (rest : List Char) : Nat → Option (List Char)
  | 0 => captureAt rest
  | k + 1 =>
    match captureAt (rest.drop (k + 1)) with
    | some w => some w
    | none => capBacktrack rest k

/-- Complete the disclaimer regex after a matched DISCLAIMER: literal. -/
def disclaimerCapture (rest : List Char) : Option (List Char) :=
  capBacktrack rest (rest.takeWhile jsWhitespaceChar).length

/-- Scan of the disclaimer regex over the text: try every start position
in order; at each position the case-insensitive literal must match and
the capture must complete, else move on. -/
def disclaimerScan : List Char → Option (List Char)
  | [] => none
  | c :: t =>
    if matchesAtCI (c :: t) "DISCLAIMER:".data then
      match disclaimerCapture ((c :: t).drop 11) with
      | some cap => some cap
      | none => disclaimerScan t
    else disclaimerScan t

/-- Bullet-line test of the summary filter: a bullet glyph followed by a
whitespace character. -/
def isBulletStart (s : String) : Bool :=
  match s.data with
  | c :: d :: _ => (c = '-' ∨ c = '*' ∨ c = '•') ∧ jsWhitespaceChar d
  | _ => false

/-- Bullet-strip replace of the summary pipeline: when the line starts
with a glyph and at least one whitespace character, remove the glyph and
the whole greedy whitespace run; otherwise leave the line unchanged. -/
def stripBullet (s : String) : String :=
  match s.data with
  | c :: d :: rest =>
    if (c = '-' ∨ c = '*' ∨ c = '•') ∧ jsWhitespaceChar d then
      String.mk ((d :: rest).dropWhile jsWhitespaceChar)
    else s
  | _ => s

/-- Numbered-line test of the takeaways filter: a nonempty digit run
followed by a dot. -/
def isNumberedStart (s : String) : Bool :=
  let ds := s.data.takeWhile isDigit09
  !ds.isEmpty &&
    (match s.data.drop ds.length with
     | '.' :: _ => true
     | _ => false)

/-- Numeral-strip replace of the takeaways pipeline: the replace pattern
requires digits, a dot and at least one whitespace character; only then
are the digits, the dot and the greedy whitespace run removed — a line
such as a digit run and dot followed directly by text is left whole. -/
def stripNumeral (s : String) : String :=
  let ds := s.data.takeWhile isDigit09
  if ds.isEmpty then s
  else
    match s.data.drop ds.length with
    | '.' :: d :: rest =>
      if jsWhitespaceChar d then String.mk ((d :: rest).dropWhile jsWhitespaceChar)
      else s
    | _ => s

/-- The structured parse result of GeminiAPI._parseResponse. -/
structure ParseResult where
  summary : List String
  takeaways : List String
  disclaimer : Option String
  hasTranscript : Bool
deriving DecidableEq

/-- GeminiAPI._parseResponse: disclaimer by regex scan; summary block
split into lines, each trimmed, kept when bullet-shaped, glyph-stripped,
capped at 8; takeaways block likewise with the numbered filter, capped
at 3; absent sections leave the empty list. -/
def parseResponse (text : String) (hasTranscript : Bool) : ParseResult :=
  let disc := (disclaimerScan text.data).map (fun w => String.mk (jsTrimL w))
  let summary :=
    match sectionAfter text "SUMMARY:" (some "TAKEAWAYS:") with
    | none => []
    | some block =>
      ((((jsLinesOf block).map jsTrim).filter isBulletStart).map stripBullet).take 8
  let takeaways :=
    match sectionAfter text "TAKEAWAYS:" none with
    | none => []
    | some block =>
      ((((jsLinesOf block).map jsTrim).filter isNumberedStart).map stripNumeral).take 3
  ⟨summary, takeaways, disc, hasTranscript⟩

/-- The summary pipeline exactly as the claim words it: lines of the block
kept only when they begin with a bullet glyph followed by whitespace (no
trimming of the line first), glyph stripped, capped at 8. -/
def claimSummaryBullets (text : String) : List String :=
  match sectionAfter text "SUMMARY:" (some "TAKEAWAYS:") with
  | none => []
  | some block =>
    (((jsLinesOf block).filter isBulletStart).map stripBullet).take 8

/-- The unconditional numeral strip the claim words: remove the digit run
and the dot (with any separator whitespace) from every kept line. -/
def claimStripNumeral (s : String) : String :=
  let ds := s.data.takeWhile isDigit09
  if ds.isEmpty then s
  else
    match s.data.drop ds.length with
    | '.' :: rest => String.mk (rest.dropWhile jsWhitespaceChar)
    | _ => s

/-- The takeaways pipeline exactly as the claim words it: lines of the
block kept only when they begin with a digit run and a dot (no trimming
first), numeral prefixes stripped unconditionally, capped at 3. -/
def claimTakeaways (text : String) : List String :=
  match sectionAfter text "TAKEAWAYS:" none with
  | none => []
  | some block =>
    (((jsLinesOf block).filter isNumberedStart).map claimStripNumeral).take 3

/-- One-pass collector equivalent of the summary pipeline: walk the lines
keeping a budget of remaining slots, trimming each line, emitting the
stripped form of bullet-shaped lines. -/
def collectBullets : List String → Nat → List String
  | [], _ => []
  | _ :: _, 0 => []
  | l :: ls, n + 1 =>
    if isBulletStart (jsTrim l) then
      stripBullet (jsTrim l) :: collectBullets ls n
    else collectBullets ls (n + 1)

/-- One-pass collector equivalent of the takeaways pipeline. -/
def collectNumbered : List String → Nat → List String
  | [], _ => []
  | _ :: _, 0 => []
  | l :: ls, n + 1 =>
    if isNumberedStart (jsTrim l) then
      stripNumeral (jsTrim l) :: collectNumbered ls n
    else collectNumbered ls (n + 1)

/-- The amended summary pipeline: as the claim, but lines are trimmed
before the bullet test, stated through the one-pass collector. -/
def amendedSummaryBullets (text : String) : List String :=
  match sectionAfter text "SUMMARY:" (some "TAKEAWAYS:") with
  | none => []
  | some block => collectBullets (jsLinesOf block) 8

/-- The amended takeaways pipeline: as the claim, but lines are trimmed
before the numbered test and the numeral strip happens only when
whitespace follows the dot, stated through the one-pass collector. -/
def amendedTakeaways (text : String) : List String :=
  match sectionAfter text "TAKEAWAYS:" none with
  | none => []
  | some block => collectNumbered (jsLinesOf block) 3

/-! ## Transcript fetcher (src/transcript-fetcher.js) -/

/-- TranscriptResult record: text, availability flag, source tag and an
optional diagnostic message (the catch branch sets error and leaves
source undefined, modelled as none). -/
structure TranscriptResult where
  text : Option String
  available : Bool
  source : Option String
  error : Option String
deriving DecidableEq

/-- TranscriptFetcher.fetchTranscript: method 1 (Innertube), then method 2
(page scrape), each method resolving to optional text or throwing; a
truthy (non-null, non-empty) text wins; a thrown error is caught and
collapsed into an unavailable result. -/
def fetchTranscript (m1 m2 : Except String (Option String)) :
    TranscriptResult :=
  match m1 with
  | Except.error e => ⟨none, false, none, some e⟩
  | Except.ok t1 =>
    if truthyStr t1 then ⟨t1, true, some "innertube", none⟩
    else
      match m2 with
      | Except.error e => ⟨none, false, none, some e⟩
      | Except.ok t2 =>
        if truthyStr t2 then ⟨t2, true, some "page_scrape", none⟩
        else ⟨none, false, none, none⟩

/-- A caption track as read from the player response: optional language
code and optional kind tag; kind = asr marks auto-generated tracks. -/
structure CaptionTrack where
  languageCode : Option String
  kind : Option String
deriving DecidableEq

/-- Optional-chained languageCode startsWith test of the selection
predicates: absent languageCode is falsy. -/
def trackLangEn (t : CaptionTrack) : Bool :=
  match t.languageCode with
  | some l => l.startsWith "en"
  | none => false

/-- The six selection predicates of _selectBestTrack, in priority order. -/
def trackPrio : Nat → CaptionTrack → Bool
  | 0, t => t.languageCode = some "en" ∧ t.kind ≠ some "asr"
  | 1, t => t.languageCode = some "en" ∧ t.kind = some "asr"
  | 2, t => trackLangEn t ∧ t.kind ≠ some "asr"
  | 3, t => trackLangEn t
  | 4, t => t.kind ≠ some "asr"
  | _, _ => true

/-- The priority loop of _selectBestTrack: first predicate with a find hit
wins, returning that first hit; exhaustion falls back to the head. -/
def selectLoop (tracks : List CaptionTrack) : List Nat → Option CaptionTrack
  | [] => tracks.head?
  | k :: ks =>
    match tracks.find? (trackPrio k) with
    | some t => some t
    | none => selectLoop tracks ks

/-- TranscriptFetcher._selectBestTrack. -/
def selectBestTrack (tracks : List CaptionTrack) : Option CaptionTrack :=
  if tracks.isEmpty then none
  else selectLoop tracks [0, 1, 2, 3, 4, 5]

/-! ## Background pipeline stages (src/background.js) -/

/-- VideoMetadata record. -/
structure VideoMetadata where
  title : Option String
  channel : Option String
  description : Option String
deriving DecidableEq

/-- The metadata-only prompt built by generateAndShowSummary when no
transcript is available: title (with fallbacks), channel and description
followed by the no-transcript note. -/
def metadataPrompt (md : VideoMetadata) (title : Option String) : String :=
  "VIDEO TITLE: " ++ jsOr md.title (jsOr title "Unknown video") ++ "\n" ++
  "CHANNEL: " ++ jsOr md.channel "" ++ "\n" ++
  "DESCRIPTION: " ++ jsOr md.description "" ++ "\n\n" ++
  "Note: No transcript was available for this video. Please provide a summary based on the title and description above."

/-- Content handed to the cascade by generateAndShowSummary: the
transcript text when truthy and available, else the metadata prompt. -/
def contentForAI (tr : TranscriptResult) (md : VideoMetadata)
    (title : Option String) : String :=
  match tr.text with
  | some s => if s ≠ "" ∧ tr.available then s else metadataPrompt md title
  | none => metadataPrompt md title

/-- The action generateAndShowSummary takes after its configuration and
cache checks. -/
inductive PanelAction where
  | showError (msg : String)
  | showCachedSummary
  | summarize (content : String)
deriving DecidableEq

/-- Decision stage of generateAndShowSummary: no provider configured shows
an error; a cache hit short-circuits; otherwise the cascade is invoked
with contentForAI. -/
def generateAndShowSummaryStage (R : Type) (hasProvider : Bool)
    (cached : Option R) (tr : TranscriptResult) (md : VideoMetadata)
    (title : Option String) : PanelAction :=
  if hasProvider = false then
    PanelAction.showError "No AI provider configured. Please set up Gemini, DeepSeek, or Ollama in extension settings."
  else
    match cached with
    | some _ => PanelAction.showCachedSummary
    | none => PanelAction.summarize (contentForAI tr md title)

/-- The action handleGetSummary takes after its checks. -/
inductive PopupAction where
  | needsSetup
  | cachedResult
  | summarizeWith (arg : Option String)
deriving DecidableEq

/-- Decision stage of handleGetSummary (legacy popup path): on a cache
miss it hands the cascade transcriptResult.text directly (null when the
transcript is unavailable). -/
def handleGetSummaryStage (R : Type) (hasProvider : Bool)
    (cached : Option R) (tr : TranscriptResult) : PopupAction :=
  if hasProvider = false then PopupAction.needsSetup
  else
    match cached with
    | some _ => PopupAction.cachedResult
    | none => PopupAction.summarizeWith tr.text

/-! ## Shared helper lemmas -/

theorem str_append_assoc (a b c : String) : a ++ b ++ c = a ++ (b ++ c) := by
  cases a with
  | mk l1 =>
    cases b with
    | mk l2 =>
      cases c with
      | mk l3 =>
        show String.mk (l1 ++ l2 ++ l3) = String.mk (l1 ++ (l2 ++ l3))
        exact congrArg String.mk (List.append_assoc l1 l2 l3)

/-! ## Cache theorems (claims C3, C4) -/

/-- Example storage holding one entry under the cache key for vid with a
zero expiresAt timestamp. -/
def zeroExpiryStorage : Storage Nat :=
  fun k => if k = cacheKey "vid" then some ⟨0, some 0, 0⟩ else none

/-- C3 counterexample: an entry is stored for vid, the current time 5 is
past its expiresAt 0, yet get returns the stored data and leaves the
entry in place — the truthiness guard on expiresAt skips expiry for a
zero timestamp, contradicting the claim that get then deletes the entry
and returns null. -/
theorem cache_get_zero_expiry_counterexample :
    zeroExpiryStorage (cacheKey "vid") = some ⟨0, some 0, 0⟩ ∧
    (5 : Int) > 0 ∧
    (SummaryCache.get zeroExpiryStorage 5 "vid").1 = some 0 ∧
    (SummaryCache.get zeroExpiryStorage 5 "vid").2 (cacheKey "vid") =
      some ⟨0, some 0, 0⟩ := by
  refine ⟨rfl, by norm_num, ?_, ?_⟩ <;> rfl

/-- C3 amended: get returns null on an absent entry; on a stored entry
whose expiresAt is present, nonzero and strictly before now, get deletes
the entry and returns null; otherwise (unexpired, zero or absent
expiresAt) get returns the stored data and leaves storage unchanged. -/
theorem cache_get_spec (α : Type) (st : Storage α) (now : Int) (id : String) :
    (st (cacheKey id) = none → SummaryCache.get st now id = (none, st)) ∧
    (∀ e : CacheEntry α, st (cacheKey id) = some e →
      (∀ t : Int, e.expiresAt = some t → t ≠ 0 → now > t →
        SummaryCache.get st now id = (none, SummaryCache.delete st id) ∧
        (SummaryCache.get st now id).2 (cacheKey id) = none) ∧
      ((match e.expiresAt with
        | some t => t = 0 ∨ ¬ now > t
        | none => True) →
        SummaryCache.get st now id = (some e.data, st))) := by
  constructor
  · intro h
    simp [SummaryCache.get, h]
  · intro e he
    constructor
    · intro t ht hne hlt
      have : SummaryCache.get st now id = (none, SummaryCache.delete st id) := by
        simp [SummaryCache.get, he, ht, hne, hlt]
      refine ⟨this, ?_⟩
      rw [this]
      simp [SummaryCache.delete]
    · intro hok
      cases hx : e.expiresAt with
      | none => simp [SummaryCache.get, he, hx]
      | some t =>
        rw [hx] at hok
        rcases hok with h0 | hnow
        · simp [SummaryCache.get, he, hx, h0]
        · simp [SummaryCache.get, he, hx, hnow]

/-- Example storage with an expired (nonzero) entry and nothing else. -/
def expiredStorage : Storage Nat :=
  fun k => if k = cacheKey "vid" then some ⟨7, some 10, 0⟩ else none

/-- Witness for the amended C3 theorem: at time 20 the entry with
expiresAt 10 is removed and null returned, and a never-stored id gives
null. -/
theorem cache_get_spec_witness :
    SummaryCache.get expiredStorage 20 "vid" =
      (none, SummaryCache.delete expiredStorage "vid") ∧
    (SummaryCache.get expiredStorage 20 "vid").2 (cacheKey "vid") = none ∧
    SummaryCache.get expiredStorage 20 "other" = (none, expiredStorage) := by
  have h1 := ((cache_get_spec Nat expiredStorage 20 "vid").2 ⟨7, some 10, 0⟩
    (by rfl)).1 10 rfl (by norm_num) (by norm_num)
  have h2 := (cache_get_spec Nat expiredStorage 20 "other").1 (by rfl)
  exact ⟨h1.1, h1.2, h2⟩

/-- C4: a set immediately followed by a get before the entry expiry (the
default TTL of 168 hours) returns exactly the stored data. -/
theorem cache_set_get_roundtrip (α : Type) (st : Storage α)
    (now now2 : Int) (id : String) (data : α)
    (h : now2 ≤ now + DEFAULT_TTL_HOURS * 60 * 60 * 1000) :
    (SummaryCache.get
      (SummaryCache.set st now id data DEFAULT_TTL_HOURS) now2 id).1 =
      some data := by
  have hnot : ¬ now2 > now + DEFAULT_TTL_HOURS * 60 * 60 * 1000 :=
    not_lt.mpr h
  simp [SummaryCache.get, SummaryCache.set, hnot]

/-- Witness for C4 at a concrete store, id, data and times. -/
theorem cache_set_get_roundtrip_witness :
    (SummaryCache.get
      (SummaryCache.set (fun _ => (none : Option (CacheEntry Nat))) 0 "v" 7
        DEFAULT_TTL_HOURS) 0 "v").1 = some 7 :=
  cache_set_get_roundtrip Nat (fun _ => none) 0 0 "v" 7
    (by norm_num [DEFAULT_TTL_HOURS])

/-! ## Cascade theorems (claims C1, C2) -/

/-- C1: generateSummary tries the fixed order gemini, openrouter,
deepseek, local; whenever some provider succeeds, the result is the
summary of the first succeeding provider tagged with its name, and the
invoked providers are exactly the failing predecessors followed by that
provider (so nothing after the first success is invoked). A missing
credential is one of the thrown failure outcomes the res parameter
ranges over, recorded and skipped like any other failure. -/
theorem generateSummary_first_success (res : String → Except String String)
    (h : ∃ p ∈ providers, (res p).isOk = true) :
    ∃ p s, res p = Except.ok s ∧
      providers.find? (fun q => (res q).isOk) = some p ∧
      (APIManager.generateSummary res).2 = Except.ok (s, p) ∧
      (APIManager.generateSummary res).1 =
        providers.takeWhile (fun q => !(res q).isOk) ++ [p] := by
  rcases hg : res "gemini" with eg | sg
  case ok =>
    refine ⟨"gemini", sg, hg, ?_, ?_, ?_⟩ <;>
      simp [providers, APIManager.generateSummary, cascadeGo,
        List.find?, List.takeWhile, Except.isOk, Except.toBool, hg]
  case error =>
    rcases ho : res "openrouter" with eo | so
    case ok =>
      refine ⟨"openrouter", so, ho, ?_, ?_, ?_⟩ <;>
        simp [providers, APIManager.generateSummary, cascadeGo,
          List.find?, List.takeWhile, Except.isOk, Except.toBool, hg, ho]
    case error =>
      rcases hd : res "deepseek" with ed | sd
      case ok =>
        refine ⟨"deepseek", sd, hd, ?_, ?_, ?_⟩ <;>
          simp [providers, APIManager.generateSummary, cascadeGo,
            List.find?, List.takeWhile, Except.isOk, Except.toBool, hg, ho, hd]
      case error =>
        rcases hl : res "local" with el | sl
        case ok =>
          refine ⟨"local", sl, hl, ?_, ?_, ?_⟩ <;>
            simp [providers, APIManager.generateSummary, cascadeGo,
              List.find?, List.takeWhile, Except.isOk, Except.toBool,
              hg, ho, hd, hl]
        case error =>
          exfalso
          rcases h with ⟨p, hp, hok⟩
          simp [providers] at hp
          rcases hp with rfl | rfl | rfl | rfl <;>
            simp [Except.isOk, Except.toBool, hg, ho, hd, hl] at hok

/-- The outcome assignment of the cascade-ordering test scenario:
gemini and openrouter fail, deepseek succeeds, local is unreached. -/
def exampleCascadeOutcomes : String → Except String String :=
  fun p => if p = "deepseek" then Except.ok "S" else Except.error "fail"

/-- Witness for C1 on the spec scenario fail, fail, succeed, unreached:
the provider field identifies deepseek and local is never invoked. -/
theorem generateSummary_first_success_witness :
    (∃ p s, exampleCascadeOutcomes p = Except.ok s ∧
      providers.find? (fun q => (exampleCascadeOutcomes q).isOk) = some p ∧
      (APIManager.generateSummary exampleCascadeOutcomes).2 =
        Except.ok (s, p) ∧
      (APIManager.generateSummary exampleCascadeOutcomes).1 =
        providers.takeWhile (fun q => !(exampleCascadeOutcomes q).isOk) ++
          [p]) ∧
    (APIManager.generateSummary exampleCascadeOutcomes).2 =
      Except.ok ("S", "deepseek") ∧
    (APIManager.generateSummary exampleCascadeOutcomes).1 =
      ["gemini", "openrouter", "deepseek"] := by
  refine ⟨generateSummary_first_success exampleCascadeOutcomes
    ⟨"deepseek", by decide, by decide⟩, by rfl, by rfl⟩

/-- C2: when all four providers fail, generateSummary rejects with the
single aggregate message naming each provider and its reason in attempt
order gemini, openrouter, deepseek, local. -/
theorem generateSummary_all_fail_aggregate
    (res : String → Except String String) (e1 e2 e3 e4 : String)
    (h1 : res "gemini" = Except.error e1)
    (h2 : res "openrouter" = Except.error e2)
    (h3 : res "deepseek" = Except.error e3)
    (h4 : res "local" = Except.error e4) :
    (APIManager.generateSummary res).2 = Except.error
      ("All AI providers failed:\n" ++
        ("- gemini: " ++ (e1 ++ ("\n" ++
          ("- openrouter: " ++ (e2 ++ ("\n" ++
            ("- deepseek: " ++ (e3 ++ ("\n" ++
              ("- local: " ++ e4))))))))))) := by
  simp only [APIManager.generateSummary, providers, cascadeGo, h1, h2, h3,
    h4, aggregateMessage, joinLines, List.map, List.nil_append,
    List.cons_append]
  congr 1
  simp [str_append_assoc]

/-- A configuration where every provider throws the same error. -/
def allFailOutcomes : String → Except String String :=
  fun _ => Except.error "no key"

/-- Witness for C2: the concrete aggregate message, with all four
provider names and reasons in order. -/
theorem generateSummary_all_fail_aggregate_witness :
    (APIManager.generateSummary allFailOutcomes).2 = Except.error
      "All AI providers failed:\n- gemini: no key\n- openrouter: no key\n- deepseek: no key\n- local: no key" := by
  have h := generateSummary_all_fail_aggregate allFailOutcomes
    "no key" "no key" "no key" "no key" rfl rfl rfl rfl
  rw [h]
  rfl

/-! ## Provider configuration theorems (claim C10) -/

/-- C10: the local provider is never skipped as not-configured — its
request list is always exactly the generate endpoint under the resolved
base URL, with defaults substituted for absent settings (and one
trailing slash stripped from a stored URL); the three cloud providers
fail immediately, issuing no request, when their key is absent or
empty. -/
theorem callLocal_always_requests (st : SyncStorage)
    (net : String → NetOutcome) :
    (APIManager.callLocal st net).1 =
      [(ollamaConfig st).1 ++ "/api/generate"] ∧
    (st.ollamaUrl = none → (ollamaConfig st).1 = "http://localhost:11434") ∧
    (st.ollamaModel = none → (ollamaConfig st).2 = "llama3.2") ∧
    (∀ u : String, st.ollamaUrl = some u → u ≠ "" →
      (ollamaConfig st).1 = stripTrailingSlash u) ∧
    (truthyStr st.apiKey = false →
      APIManager.callGemini st net =
        ([], Except.error "Gemini API key not configured")) ∧
    (truthyStr st.openRouterApiKey = false →
      APIManager.callOpenRouter st net =
        ([], Except.error "OpenRouter API key not configured")) ∧
    (truthyStr st.deepSeekApiKey = false →
      APIManager.callDeepSeek st net =
        ([], Except.error "DeepSeek API key not configured")) := by
  refine ⟨rfl, ?_, ?_, ?_, ?_, ?_, ?_⟩
  · intro h
    simp only [ollamaConfig, jsOr, h]
    decide
  · intro h
    simp [ollamaConfig, jsOr, h]
  · intro u hu hne
    simp [ollamaConfig, jsOr, hu, hne]
  · intro h
    simp [APIManager.callGemini, h]
  · intro h
    simp [APIManager.callOpenRouter, h]
  · intro h
    simp [APIManager.callDeepSeek, h]

/-- A wholly empty settings record. -/
def emptySettings : SyncStorage := ⟨none, none, none, none, none, none⟩

/-- A network stub that always fails. -/
def downNet : String → NetOutcome := fun _ => NetOutcome.netError "down"

/-- Witness for C10 on the empty settings record: the local provider
still issues its request at the default endpoint while gemini fails
without one. -/
theorem callLocal_always_requests_witness :
    (APIManager.callLocal emptySettings downNet).1 =
      ["http://localhost:11434/api/generate"] ∧
    APIManager.callGemini emptySettings downNet =
      ([], Except.error "Gemini API key not configured") := by
  have h := callLocal_always_requests emptySettings downNet
  constructor
  · rw [h.1, h.2.1 rfl]
    rfl
  · exact h.2.2.2.2.1 rfl

/-! ## Track selection theorem (claim C7) -/

/-- C7: for every non-empty track list the selection returns the first
track satisfying the highest-priority predicate of the six, and on the
spec example the English manual track wins over the earlier French and
English auto-generated ones. -/
theorem selectBestTrack_priority :
    (∀ ts : List CaptionTrack, ts ≠ [] →
      ∃ k : Nat, k < 6 ∧
        (∀ j : Nat, j < k → ts.find? (trackPrio j) = none) ∧
        (ts.find? (trackPrio k)).isSome = true ∧
        selectBestTrack ts = ts.find? (trackPrio k)) ∧
    selectBestTrack
        [⟨some "fr", some "asr"⟩, ⟨some "en", some "asr"⟩,
         ⟨some "en", some "manual"⟩] =
      some ⟨some "en", some "manual"⟩ := by
  constructor
  · intro ts hne
    have hempty : ts.isEmpty = false := by
      cases ts with
      | nil => exact absurd rfl hne
      | cons x xs => rfl
    rcases h0 : ts.find? (trackPrio 0) with _ | t0
    case some =>
      refine ⟨0, by norm_num, ?_, ?_, ?_⟩
      · intro j hj
        exact absurd hj (by omega)
      · rw [h0]
        rfl
      · simp [selectBestTrack, hempty, selectLoop, h0]
    rcases h1 : ts.find? (trackPrio 1) with _ | t1
    case some =>
      refine ⟨1, by norm_num, ?_, ?_, ?_⟩
      · intro j hj
        interval_cases j
        · exact h0
      · rw [h1]
        rfl
      · simp [selectBestTrack, hempty, selectLoop, h0, h1]
    rcases h2 : ts.find? (trackPrio 2) with _ | t2
    case some =>
      refine ⟨2, by norm_num, ?_, ?_, ?_⟩
      · intro j hj
        interval_cases j
        · exact h0
        · exact h1
      · rw [h2]
        rfl
      · simp [selectBestTrack, hempty, selectLoop, h0, h1, h2]
    rcases h3 : ts.find? (trackPrio 3) with _ | t3
    case some =>
      refine ⟨3, by norm_num, ?_, ?_, ?_⟩
      · intro j hj
        interval_cases j
        · exact h0
        · exact h1
        · exact h2
      · rw [h3]
        rfl
      · simp [selectBestTrack, hempty, selectLoop, h0, h1, h2, h3]
    rcases h4 : ts.find? (trackPrio 4) with _ | t4
    case some =>
      refine ⟨4, by norm_num, ?_, ?_, ?_⟩
      · intro j hj
        interval_cases j
        · exact h0
        · exact h1
        · exact h2
        · exact h3
      · rw [h4]
        rfl
      · simp [selectBestTrack, hempty, selectLoop, h0, h1, h2, h3, h4]
    · cases ts with
      | nil => exact absurd rfl hne
      | cons x xs =>
        have h5 : (x :: xs).find? (trackPrio 5) = some x := by
          simp [List.find?, trackPrio]
        refine ⟨5, by norm_num, ?_, ?_, ?_⟩
        · intro j hj
          interval_cases j
          · exact h0
          · exact h1
          · exact h2
          · exact h3
          · exact h4
        · rw [h5]
          rfl
        · simp [selectBestTrack, selectLoop, h0, h1, h2, h3, h4, h5]
  · rfl

/-- The caption track list of the spec track-selection example. -/
def exampleTracks : List CaptionTrack :=
  [⟨some "fr", some "asr"⟩, ⟨some "en", some "asr"⟩,
   ⟨some "en", some "manual"⟩]

/-- Witness for C7: the general statement applied to the example list. -/
theorem selectBestTrack_priority_witness :
    ∃ k : Nat, k < 6 ∧
      (∀ j : Nat, j < k → exampleTracks.find? (trackPrio j) = none) ∧
      (exampleTracks.find? (trackPrio k)).isSome = true ∧
      selectBestTrack exampleTracks = exampleTracks.find? (trackPrio k) :=
  selectBestTrack_priority.1 exampleTracks (by decide)

/-! ## Transcript fetch theorems (claim C8) -/

/-- A method outcome that counts as success for fetchTranscript: a
resolved, truthy (non-null, non-empty) transcript string. -/
def truthySucc (m : Except String (Option String)) : Prop :=
  ∃ s : String, m = Except.ok (some s) ∧ s ≠ ""

/-- C8: fetchTranscript is a total function into TranscriptResult (it
catches every thrown method error); available true forces a non-null,
non-empty text; and when neither method truthily succeeds the result has
null text, available false and no source. -/
theorem fetchTranscript_total_shape (m1 m2 : Except String (Option String)) :
    ((fetchTranscript m1 m2).available = true →
      ∃ s : String, (fetchTranscript m1 m2).text = some s ∧ s ≠ "") ∧
    (¬ truthySucc m1 → ¬ truthySucc m2 →
      (fetchTranscript m1 m2).text = none ∧
      (fetchTranscript m1 m2).available = false ∧
      (fetchTranscript m1 m2).source = none) := by
  rcases m1 with e1 | t1
  · exact ⟨by intro h; simp [fetchTranscript] at h, fun _ _ => ⟨rfl, rfl, rfl⟩⟩
  · rcases t1 with _ | s1
    · rcases m2 with e2 | t2
      · exact ⟨by intro h; simp [fetchTranscript, truthyStr] at h,
          fun _ _ => ⟨rfl, rfl, rfl⟩⟩
      · rcases t2 with _ | s2
        · exact ⟨by intro h; simp [fetchTranscript, truthyStr] at h,
            fun _ _ => ⟨rfl, rfl, rfl⟩⟩
        · by_cases hs2 : s2 = ""
          · subst hs2
            exact ⟨by intro h; simp [fetchTranscript, truthyStr] at h,
              fun _ _ => ⟨rfl, rfl, rfl⟩⟩
          · refine ⟨fun _ => ⟨s2, ?_, hs2⟩, fun _ hn2 => ?_⟩
            · simp [fetchTranscript, truthyStr, hs2]
            · exact absurd ⟨s2, rfl, hs2⟩ hn2
    · by_cases hs1 : s1 = ""
      · subst hs1
        rcases m2 with e2 | t2
        · exact ⟨by intro h; simp [fetchTranscript, truthyStr] at h,
            fun _ _ => ⟨rfl, rfl, rfl⟩⟩
        · rcases t2 with _ | s2
          · exact ⟨by intro h; simp [fetchTranscript, truthyStr] at h,
              fun _ _ => ⟨rfl, rfl, rfl⟩⟩
          · by_cases hs2 : s2 = ""
            · subst hs2
              exact ⟨by intro h; simp [fetchTranscript, truthyStr] at h,
                fun _ _ => ⟨rfl, rfl, rfl⟩⟩
            · refine ⟨fun _ => ⟨s2, ?_, hs2⟩, fun _ hn2 => ?_⟩
              · simp [fetchTranscript, truthyStr, hs2]
              · exact absurd ⟨s2, rfl, hs2⟩ hn2
      · refine ⟨fun _ => ⟨s1, ?_, hs1⟩, fun hn1 _ => ?_⟩
        · simp [fetchTranscript, truthyStr, hs1]
        · exact absurd ⟨s1, rfl, hs1⟩ hn1

/-- Witness for C8: the innertube method resolves without captions and
the page scrape throws; the result is the all-failure shape. -/
theorem fetchTranscript_total_shape_witness :
    (fetchTranscript (Except.ok none) (Except.error "scrape failed")).text =
      none ∧
    (fetchTranscript (Except.ok none)
      (Except.error "scrape failed")).available = false ∧
    (fetchTranscript (Except.ok none)
      (Except.error "scrape failed")).source = none := by
  refine (fetchTranscript_total_shape (Except.ok none)
    (Except.error "scrape failed")).2 ?_ ?_
  · rintro ⟨s, hs, -⟩
    simp at hs
  · rintro ⟨s, hs, -⟩
    simp at hs

/-! ## Pipeline degradation theorems (claims C9) -/

/-- A transcript result with no transcript available. -/
def trUnavailable : TranscriptResult := ⟨none, false, none, none⟩

/-- The metadata of the degradation counterexample. -/
def mdExample : VideoMetadata := ⟨some "T", some "C", some "D"⟩

/-- C9 counterexample: on a cache miss with no transcript, the legacy
handleGetSummary path hands the provider cascade the null transcript
text, not a metadata-only prompt built from title, channel and
description (which generateAndShowSummary does build). -/
theorem handleGetSummary_null_arg_counterexample :
    handleGetSummaryStage Unit true none trUnavailable =
      PopupAction.summarizeWith none ∧
    PopupAction.summarizeWith none ≠
      PopupAction.summarizeWith (some (metadataPrompt mdExample none)) ∧
    generateAndShowSummaryStage Unit true none trUnavailable mdExample
      none = PanelAction.summarize (metadataPrompt mdExample none) := by
  refine ⟨rfl, by simp, rfl⟩

/-- C9 amended: with a provider configured and a cache miss, an
unavailable transcript never aborts either pipeline; the side-panel
path (generateAndShowSummary) hands the cascade the metadata-only
prompt built from title, channel and description, while the legacy
popup path (handleGetSummary) hands it the null transcript text
directly. -/
theorem pipeline_degrades_on_missing_transcript (R : Type)
    (tr : TranscriptResult) (md : VideoMetadata) (title : Option String)
    (h : tr.text = none) :
    generateAndShowSummaryStage R true none tr md title =
      PanelAction.summarize (metadataPrompt md title) ∧
    handleGetSummaryStage R true none tr =
      PopupAction.summarizeWith none := by
  constructor
  · simp [generateAndShowSummaryStage, contentForAI, h]
  · simp [handleGetSummaryStage, h]

/-- Witness for the amended C9 theorem at a concrete unavailable
transcript and metadata. -/
theorem pipeline_degrades_on_missing_transcript_witness :
    generateAndShowSummaryStage Unit true none trUnavailable mdExample
      none = PanelAction.summarize (metadataPrompt mdExample none) ∧
    handleGetSummaryStage Unit true none trUnavailable =
      PopupAction.summarizeWith none :=
  pipeline_degrades_on_missing_transcript Unit trUnavailable mdExample
    none rfl

/-! ## Parser theorems (claims C5, C6) -/

theorem take_filter_eq_collectBullets (ls : List String) (n : Nat) :
    ((((ls.map jsTrim).filter isBulletStart).map stripBullet).take n) =
      collectBullets ls n := by
  induction ls generalizing n with
  | nil => simp [collectBullets]
  | cons l ls ih =>
    by_cases hb : isBulletStart (jsTrim l)
    · cases n with
      | zero => simp [collectBullets, hb]
      | succ m => simp [collectBullets, hb, ih]
    · cases n with
      | zero => simp [collectBullets, hb]
      | succ m => simp [collectBullets, hb, ih]

theorem take_filter_eq_collectNumbered (ls : List String) (n : Nat) :
    ((((ls.map jsTrim).filter isNumberedStart).map stripNumeral).take n) =
      collectNumbered ls n := by
  induction ls generalizing n with
  | nil => simp [collectNumbered]
  | cons l ls ih =>
    by_cases hb : isNumberedStart (jsTrim l)
    · cases n with
      | zero => simp [collectNumbered, hb]
      | succ m => simp [collectNumbered, hb, ih]
    · cases n with
      | zero => simp [collectNumbered, hb]
      | succ m => simp [collectNumbered, hb, ih]

/-- The probe text of the C5 counterexample: an indented bullet line and
a numbered line with no space after the dot. -/
def probeText : String := "SUMMARY:\n- a\n  - b\nTAKEAWAYS:\n1.x"

/-- C5 counterexample: the parser keeps the indented bullet line (lines
are trimmed before the bullet test, so a and b both survive) while the
claim pipeline drops it; and the parser keeps the numeral prefix of a
line whose dot is not followed by whitespace, while the claim strips it
unconditionally. -/
theorem parseResponse_claim_pipeline_counterexample :
    (parseResponse probeText true).summary = ["a", "b"] ∧
    claimSummaryBullets probeText = ["a"] ∧
    (parseResponse probeText true).takeaways = ["1.x"] ∧
    claimTakeaways probeText = ["x"] ∧
    (["a", "b"] : List String) ≠ ["a"] ∧
    (["1.x"] : List String) ≠ ["x"] := by
  exact ⟨by decide, by decide, by decide, by decide, by decide, by decide⟩

/-- C5 amended: the parser summary equals the claim pipeline with lines
trimmed before the bullet test (glyph and separating whitespace
stripped), capped at the first 8 survivors in order; the takeaways
equal the claim pipeline with lines trimmed first and the numeral
prefix stripped only when whitespace follows the dot, capped at the
first 3 survivors in order. -/
theorem parseResponse_pipeline_amended (text : String) (h : Bool) :
    (parseResponse text h).summary = amendedSummaryBullets text ∧
    (parseResponse text h).takeaways = amendedTakeaways text := by
  constructor
  · cases hs : sectionAfter text "SUMMARY:" (some "TAKEAWAYS:") with
    | none => simp [parseResponse, amendedSummaryBullets, hs]
    | some block =>
      simp [parseResponse, amendedSummaryBullets, hs,
        take_filter_eq_collectBullets]
  · cases hs : sectionAfter text "TAKEAWAYS:" none with
    | none => simp [parseResponse, amendedTakeaways, hs]
    | some block =>
      simp [parseResponse, amendedTakeaways, hs,
        take_filter_eq_collectNumbered]

theorem disclaimerScan_eq_none (l : List Char)
    (h : findCI l "DISCLAIMER:".data = none) : disclaimerScan l = none := by
  induction l with
  | nil => rfl
  | cons c t ih =>
    by_cases hm : matchesAtCI (c :: t) "DISCLAIMER:".data = true
    · simp [findCI, hm] at h
    · have ht : findCI t "DISCLAIMER:".data = none := by
        simp only [findCI] at h
        rw [if_neg (by simpa using hm)] at h
        exact Option.map_eq_none'.mp h
      simp only [disclaimerScan]
      rw [if_neg (by simpa using hm)]
      exact ih ht

/-- C6 counterexample: the disclaimer regex is not anchored to line
starts — in a text with no line beginning DISCLAIMER: (the marker sits
mid-line), the parser still extracts a disclaimer instead of null. -/
theorem parseResponse_disclaimer_midline_counterexample :
    (parseResponse "a DISCLAIMER: b" true).disclaimer = some "b" ∧
    some "b" ≠ (none : Option String) ∧
    (jsLinesOf "a DISCLAIMER: b").all
      (fun l => !(("DISCLAIMER:".data).isPrefixOf l.data)) = true := by
  exact ⟨by decide, by decide, by decide⟩

/-- C6 amended: the parser is a total function; when DISCLAIMER: occurs
nowhere in the text (in any letter case, at any position — not merely
at line starts) the disclaimer is null; when TAKEAWAYS: occurs nowhere
the takeaways list is empty; when SUMMARY: occurs nowhere the summary
list is empty; and the takeaways list never exceeds 3 entries. -/
theorem parseResponse_absence (text : String) (h : Bool) :
    (findCI text.data "DISCLAIMER:".data = none →
      (parseResponse text h).disclaimer = none) ∧
    (findCI text.data "TAKEAWAYS:".data = none →
      (parseResponse text h).takeaways = []) ∧
    (findCI text.data "SUMMARY:".data = none →
      (parseResponse text h).summary = []) ∧
    (parseResponse text h).takeaways.length ≤ 3 := by
  refine ⟨?_, ?_, ?_, ?_⟩
  · intro hd
    simp [parseResponse, disclaimerScan_eq_none text.data hd]
  · intro ht
    simp [parseResponse, sectionAfter, ht]
  · intro hs
    simp [parseResponse, sectionAfter, hs]
  · simp only [parseResponse]
    cases hs : sectionAfter text "TAKEAWAYS:" none with
    | none => simp [hs]
    | some block =>
      simp only [hs]
      exact (List.length_take_le 3 _)

/-- Witness for the amended C6 theorem on marker-free text. -/
theorem parseResponse_absence_witness :
    (parseResponse "hello" true).disclaimer = none ∧
    (parseResponse "hello" true).takeaways = [] ∧
    (parseResponse "hello" true).summary = [] ∧
    (parseResponse "hello" true).takeaways.length ≤ 3 := by
  have h := parseResponse_absence "hello" true
  exact ⟨h.1 (by decide), h.2.1 (by decide), h.2.2.1 (by decide), h.2.2.2⟩

end HoverSum
